import Mathlib

/-!
Verification of the browser resource lifecycle manager of `magentic-ui`
(`src/magentic_ui/tools/playwright/browser/`).

The Python source is shallowly embedded: strings become `List Char`,
wall-clock time and delays become `ℚ`, Python `int` becomes `ℤ`
(with `Int.fdiv` for Python's floor division `//`), and the effectful
collaborators (the Playwright `connect` primitive, the socket layer, the
Docker container runtime, the random jitter draws) become explicit
oracles `Nat → _` indexed by attempt number.  Each run produces a trace
of observable events, so that claims about "which primitive was invoked,
how often, and with which argument" become statements about traces.
-/

/-! ### String primitives (embedding of the Python `str` operations used) -/

/-- Embedding of Python `pat in s` (substring containment) on `List Char`. -/
def containsTok (pat : List Char) : List Char → Bool
  | [] => pat.isEmpty
  | c :: cs => pat.isPrefixOf (c :: cs) || containsTok pat cs

/-- Embedding of Python `s.replace(pat, rep)`: replace every non-overlapping
occurrence of `pat` in `s`, scanning left to right.  The `fuel` argument is
structural bookkeeping only; `str_replace` always supplies `s.length`, which
is enough fuel because every step consumes at least one character of `s`
(for the nonempty patterns this development uses). -/
def strReplaceAux (pat rep : List Char) : Nat → List Char → List Char
  | _, [] => []
  | 0, s => s
  | fuel+1, c :: cs =>
    if !pat.isEmpty && pat.isPrefixOf (c :: cs) then
      rep ++ strReplaceAux pat rep fuel ((c :: cs).drop pat.length)
    else
      c :: strReplaceAux pat rep fuel cs

/-- Embedding of Python `s.replace(pat, rep)`. -/
def str_replace (pat rep s : List Char) : List Char :=
  strReplaceAux pat rep s.length s

/-! ### AddressResolver
(`base_playwright_browser.py`, lines 46-53 of `connect_browser_with_retry`) -/

/-- The local-machine marker `"localhost"`. -/
def localhostTok : List Char := "localhost".data

/-- The literal IPv4 loopback replacement `"127.0.0.1"`. -/
def loopbackTok : List Char := "127.0.0.1".data

/-- The sibling-container scheme+name marker `"ws://magentic-ui-"`. -/
def siblingTok : List Char := "ws://magentic-ui-".data

/-- Embedding of the IPv4-forcing rewrite at the top of
`connect_browser_with_retry`:
`if "localhost" in url and not url.startswith("ws://magentic-ui-"):
   url = url.replace("localhost", "127.0.0.1")`. -/
def resolve_url (url : List Char) : List Char :=
  if containsTok localhostTok url && !(siblingTok.isPrefixOf url) then
    str_replace localhostTok loopbackTok url
  else
    url

/-! ### ConnectionRetrier
(`base_playwright_browser.py`, `connect_browser_with_retry`, lines 39-101) -/

/-- Observable events of one `connect_browser_with_retry` run. -/
inductive Ev
  /-- One diagnostic `check_connectivity` probe. -/
  | probe
  /-- The underlying connect primitive `playwright.chromium.connect(url)`
  was invoked; `n` is the value of `retry_count` at that attempt. -/
  | attempt (url : List Char) (n : Nat)
  /-- `asyncio.sleep(d)` was awaited. -/
  | sleepEv (d : ℚ)
  /-- The backoff suspension was skipped (`elapsed + delay >= timeout`). -/
  | skipEv
  deriving DecidableEq

/-- Terminal outcome of a `connect_browser_with_retry` run.  `timeoutErr`
carries the data interpolated into the raised `TimeoutError` (`retry_count`
and the `timeout` budget) together with the wall-clock time elapsed when it
is raised. -/
inductive RunResult
  | success (attempts : Nat) (elapsed : ℚ)
  | timeoutErr (attempts : Nat) (elapsed : ℚ) (timeoutS : ℤ)
  deriving DecidableEq

/-- Embedding of the backoff delay computed after a failure has raised
`retry_count` to `rc` (lines 82-85):
`base_delay = min(2 ** (retry_count - 1), 3)`,
`delay = base_delay + random.uniform(0.1, 0.5)`; the `jit` oracle gives the
successive draws of `random.uniform(0.1, 0.5)`. -/
def backoffDelay (jit : Nat → ℚ) (rc : Nat) : ℚ :=
  min ((2 : ℚ) ^ (rc - 1)) 3 + jit (rc - 1)

/-- Embedding of the retry loop (lines 72-91).  `ok n` tells whether the
`n`-th invocation of the connect primitive succeeds, `ctime n` how much
wall-clock time it consumes, `jit n` the `n`-th jitter draw.  The loop
guard is `elapsed < timeout and retry_count < max_retries`; on failure the
computed delay is awaited only when `elapsed + delay < timeout`.  `fuel` is
structural bookkeeping: the caller passes `maxR.toNat`, and since
`retry_count` rises by one per failing iteration, the fuel-exhausted base
case is reached only in states where the loop guard is false anyway, and it
returns exactly the loop-exit outcome. -/
def retryLoop (ok : Nat → Bool) (ctime jit : Nat → ℚ) (url2 : List Char)
    (timeout maxR : ℤ) : Nat → ℚ → Nat → List Ev × RunResult
  | rc, elapsed, 0 => ([], RunResult.timeoutErr rc elapsed timeout)
  | rc, elapsed, fuel+1 =>
    if elapsed < (timeout : ℚ) ∧ (rc : ℤ) < maxR then
      if ok rc then
        ([Ev.attempt url2 rc], RunResult.success rc (elapsed + ctime rc))
      else
        if elapsed + ctime rc + backoffDelay jit (rc + 1) < (timeout : ℚ) then
          (Ev.attempt url2 rc :: Ev.sleepEv (backoffDelay jit (rc + 1)) ::
            (retryLoop ok ctime jit url2 timeout maxR (rc + 1)
              (elapsed + ctime rc + backoffDelay jit (rc + 1)) fuel).1,
           (retryLoop ok ctime jit url2 timeout maxR (rc + 1)
              (elapsed + ctime rc + backoffDelay jit (rc + 1)) fuel).2)
        else
          (Ev.attempt url2 rc :: Ev.skipEv ::
            (retryLoop ok ctime jit url2 timeout maxR (rc + 1)
              (elapsed + ctime rc) fuel).1,
           (retryLoop ok ctime jit url2 timeout maxR (rc + 1)
              (elapsed + ctime rc) fuel).2)
    else ([], RunResult.timeoutErr rc elapsed timeout)

/-- Embedding of `max_retries = min(timeout // 2, 15)` (line 62); Python
`//` is floor division, hence `Int.fdiv`. -/
def max_retries (timeout : ℤ) : ℤ :=
  min (Int.fdiv timeout 2) 15

/-- The final diagnostic probe (line 94) is executed exactly on the
timeout path. -/
def finalProbe : RunResult → List Ev
  | RunResult.timeoutErr _ _ _ => [Ev.probe]
  | RunResult.success _ _ => []

/-- Embedding of `connect_browser_with_retry(playwright, url, timeout)`:
resolve the URL, run one diagnostic probe, run the retry loop, and on the
timeout path run a final diagnostic probe before raising. -/
def connect_browser_with_retry (ok : Nat → Bool) (ctime jit : Nat → ℚ)
    (url : List Char) (timeout : ℤ) : List Ev × RunResult :=
  (Ev.probe ::
    (retryLoop ok ctime jit (resolve_url url) timeout (max_retries timeout)
        0 0 (max_retries timeout).toNat).1 ++
      finalProbe (retryLoop ok ctime jit (resolve_url url) timeout
        (max_retries timeout) 0 0 (max_retries timeout).toNat).2,
   (retryLoop ok ctime jit (resolve_url url) timeout (max_retries timeout)
      0 0 (max_retries timeout).toNat).2)

/-! ### Trace observations -/

/-- Number of invocations of the connect primitive recorded in a trace. -/
def attemptCount : List Ev → Nat
  | [] => 0
  | Ev.attempt _ _ :: es => attemptCount es + 1
  | _ :: es => attemptCount es

/-- The successive awaited backoff delays recorded in a trace. -/
def sleepDelays : List Ev → List ℚ
  | [] => []
  | Ev.sleepEv d :: es => d :: sleepDelays es
  | _ :: es => sleepDelays es

theorem attemptCount_append (a b : List Ev) :
    attemptCount (a ++ b) = attemptCount a + attemptCount b := by
  induction a with
  | nil => simp [attemptCount]
  | cons e es ih =>
    cases e <;> (simp [attemptCount, ih]; try omega)

/-- Every invocation of the connect primitive inside the retry loop passes
the URL the loop was entered with: the loop never re-resolves or mutates
the address. -/
theorem retryLoop_attempt_mem (ok : Nat → Bool) (ctime jit : Nat → ℚ)
    (url2 : List Char) (t maxR : ℤ) :
    ∀ (fuel rc : Nat) (elapsed : ℚ) (u : List Char) (n : Nat),
      Ev.attempt u n ∈ (retryLoop ok ctime jit url2 t maxR rc elapsed fuel).1 →
      u = url2 := by
  intro fuel
  induction fuel with
  | zero =>
    intro rc elapsed u n h
    simp [retryLoop] at h
  | succ f ih =>
    intro rc elapsed u n h
    rw [retryLoop] at h
    split at h
    · split at h
      · simp at h
        exact h.1
      · split at h <;> simp at h <;> rcases h with h | h
        · exact h.1
        · exact ih _ _ u n h
        · exact h.1
        · exact ih _ _ u n h
    · simp at h

theorem strReplaceAux_zero (pat rep s) : strReplaceAux pat rep 0 s = s := by
  cases s <;> rfl

theorem containsTok_append_head_notin (hp : Char) (pt : List Char) :
    ∀ (r t : List Char), (∀ a ∈ r, ¬ a = hp) →
      containsTok (hp :: pt) (r ++ t) = containsTok (hp :: pt) t := by
  intro r
  induction r with
  | nil => intro t _; rfl
  | cons d r' ih =>
    intro t hd
    have h1 : ((hp :: pt).isPrefixOf (d :: (r' ++ t))) = false := by
      have hne : (hp == d) = false :=
        beq_eq_false_iff_ne.mpr fun h => (hd d (by simp)) h.symm
      simp [List.isPrefixOf, hne]
    rw [List.cons_append, containsTok, h1, Bool.false_or]
    exact ih t fun a ha => hd a (by simp [ha])

theorem prefixOf_replaceAux (p : List Char) (rh : Char) (rt : List Char) :
    ∀ (fuel : Nat) (s q : List Char), q ≠ [] → (∀ a ∈ q, ¬ a = rh) →
      q.isPrefixOf (strReplaceAux p (rh :: rt) fuel s) = true →
      q.isPrefixOf s = true := by
  intro fuel
  induction fuel with
  | zero =>
    intro s q _ _ h
    rwa [strReplaceAux_zero] at h
  | succ f ih =>
    intro s q hq hne h
    match s with
    | [] => exact h
    | c :: cs =>
      rw [strReplaceAux] at h
      split at h
      · match q, hq with
        | qh :: qt, _ =>
          exfalso
          have hne2 : (qh == rh) = false :=
            beq_eq_false_iff_ne.mpr (hne qh (by simp))
          simp [List.isPrefixOf, hne2] at h
      · match q, hq with
        | qh :: qt, _ =>
          rw [List.isPrefixOf, Bool.and_eq_true] at h
          obtain ⟨h1, h2⟩ := h
          cases qt with
          | nil => simp [List.isPrefixOf, h1]
          | cons q1 qt' =>
            have h3 := ih cs (q1 :: qt') (by simp)
              (fun a ha => hne a (by simp [List.mem_cons] at ha ⊢; tauto)) h2
            simp [List.isPrefixOf, h1, h3]

theorem containsTok_replaceAux (hp : Char) (pt : List Char) (rh : Char) (rt : List Char)
    (hpr : ∀ a ∈ rh :: rt, ¬ a = hp) (hrp : ∀ a ∈ hp :: pt, ¬ a = rh) :
    ∀ (fuel : Nat) (s : List Char), s.length ≤ fuel →
      containsTok (hp :: pt) (strReplaceAux (hp :: pt) (rh :: rt) fuel s) = false := by
  intro fuel
  induction fuel with
  | zero =>
    intro s hs
    have : s = [] := List.length_eq_zero.mp (Nat.le_zero.mp hs)
    subst this
    rfl
  | succ f ih =>
    intro s hs
    match s with
    | [] => rfl
    | c :: cs =>
      rw [strReplaceAux]
      split
      · rename_i hpre
        have hlen : ((c :: cs).drop (hp :: pt).length).length ≤ f := by
          simp only [List.length_drop, List.length_cons] at *
          omega
        rw [containsTok_append_head_notin hp pt (rh :: rt) _ hpr]
        exact ih _ hlen
      · rename_i hpre
        have hpre2 : (hp :: pt).isPrefixOf (c :: cs) = false := by
          cases hpp : (hp :: pt).isPrefixOf (c :: cs)
          · rfl
          · exact absurd (show (!(hp :: pt).isEmpty &&
              (hp :: pt).isPrefixOf (c :: cs)) = true by simp [hpp]) hpre
        have hcs : containsTok (hp :: pt) (strReplaceAux (hp :: pt) (rh :: rt) f cs) = false :=
          ih cs (by simp only [List.length_cons] at hs; omega)
        simp only [containsTok, hcs, Bool.or_false]
        by_cases hhc : (hp == c) = true
        · cases pt with
          | nil =>
            exfalso
            have hone : ([hp].isPrefixOf (c :: cs)) = true := by
              simp [List.isPrefixOf, hhc]
            simp [hpre2] at hone
          | cons p1 pt' =>
            by_contra hcon
            rw [Bool.not_eq_false, List.isPrefixOf, Bool.and_eq_true] at hcon
            obtain ⟨_, h2⟩ := hcon
            have h3 := prefixOf_replaceAux (hp :: p1 :: pt') rh rt f cs (p1 :: pt')
              (by simp) (fun a ha => hrp a (by simp [List.mem_cons] at ha ⊢; tauto)) h2
            have h4 : ((hp :: p1 :: pt').isPrefixOf (c :: cs)) = true := by
              rw [List.isPrefixOf]
              simp [hhc, h3]
            simp [hpre2] at h4
        · simp [List.isPrefixOf, hhc]

/-- After replacing every occurrence of `"localhost"` by `"127.0.0.1"`, no
occurrence of `"localhost"` remains: the replacement is exhaustive and the
replacement text cannot recombine with surrounding characters into a new
occurrence (no character of `"127.0.0.1"` equals the first character of
`"localhost"` and vice versa). -/
theorem str_replace_no_localhost (s : List Char) :
    containsTok localhostTok (str_replace localhostTok loopbackTok s) = false := by
  have hl : localhostTok = 'l' :: "ocalhost".data := by decide
  have hb : loopbackTok = '1' :: "27.0.0.1".data := by decide
  rw [str_replace, hl, hb]
  exact containsTok_replaceAux 'l' ("ocalhost".data) '1' ("27.0.0.1".data)
    (by decide) (by decide) s.length s le_rfl

/-- Claim C1: every URL that contains `"localhost"` and does not start with
`"ws://magentic-ui-"` has every occurrence of `"localhost"` replaced by
`"127.0.0.1"` before the connect primitive is invoked; every other URL is
passed to the connect primitive unchanged.  The first conjunct states that
every invocation of the connect primitive in any run uses exactly
`resolve_url url`; the remaining conjuncts state that `resolve_url`
performs the full textual replacement exactly under the claimed condition. -/
theorem claim_C1 (ok : Nat → Bool) (ctime jit : Nat → ℚ) (url : List Char)
    (timeout : ℤ) :
    (∀ (u : List Char) (n : Nat),
        Ev.attempt u n ∈ (connect_browser_with_retry ok ctime jit url timeout).1 →
        u = resolve_url url) ∧
    (containsTok localhostTok url = true → siblingTok.isPrefixOf url = false →
        resolve_url url = str_replace localhostTok loopbackTok url ∧
        containsTok localhostTok (resolve_url url) = false) ∧
    (containsTok localhostTok url = false ∨ siblingTok.isPrefixOf url = true →
        resolve_url url = url) := by
  refine ⟨?_, ?_, ?_⟩
  · intro u n h
    simp only [connect_browser_with_retry, List.mem_cons, List.mem_append] at h
    rcases h with (h | h) | h
    · exact absurd h (by simp)
    · exact retryLoop_attempt_mem ok ctime jit (resolve_url url) timeout
        (max_retries timeout) _ _ _ u n h
    · cases hr : (retryLoop ok ctime jit (resolve_url url) timeout
        (max_retries timeout) 0 0 (max_retries timeout).toNat).2 <;>
          rw [hr] at h <;> simp [finalProbe] at h
  · intro h1 h2
    have he : resolve_url url = str_replace localhostTok loopbackTok url := by
      simp [resolve_url, h1, h2]
    exact ⟨he, by rw [he]; exact str_replace_no_localhost url⟩
  · intro h
    rcases h with h | h <;> simp [resolve_url, h]

/-- Witness for C1 at concrete inputs from the test suite: a URL with
`"localhost"` in its path is rewritten textually, a sibling-container URL
is passed through unchanged, and a URL with two occurrences retains none
after resolution. -/
theorem claim_C1_witness :
    resolve_url ("ws://example.com:57600/localhost/test-path".data) =
      "ws://example.com:57600/127.0.0.1/test-path".data ∧
    resolve_url ("ws://magentic-ui-vnc-browser:37367/ws".data) =
      "ws://magentic-ui-vnc-browser:37367/ws".data ∧
    containsTok localhostTok
      (resolve_url ("ws://localhost:57600/localhost/x".data)) = false := by
  refine ⟨?_, ?_, ?_⟩
  · have h := ((claim_C1 (fun _ => true) (fun _ => 0) (fun _ => 0)
      ("ws://example.com:57600/localhost/test-path".data) 5).2.1
      (by decide) (by decide)).1
    rw [h]
    decide
  · exact (claim_C1 (fun _ => true) (fun _ => 0) (fun _ => 0)
      ("ws://magentic-ui-vnc-browser:37367/ws".data) 5).2.2
      (Or.inl (by decide))
  · exact ((claim_C1 (fun _ => true) (fun _ => 0) (fun _ => 0)
      ("ws://localhost:57600/localhost/x".data) 5).2.1
      (by decide) (by decide)).2

/-! ### Claims about the retry policy -/

/-- When the remaining budget and retry budget admit no iteration at all
(`max_retries t <= 0`), the run degenerates to the two diagnostic probes
and the timeout error with zero attempts and zero elapsed time. -/
theorem run_no_budget (ok : Nat → Bool) (ctime jit : Nat → ℚ)
    (url : List Char) (t : ℤ) (h : (max_retries t).toNat = 0) :
    connect_browser_with_retry ok ctime jit url t =
      ([Ev.probe, Ev.probe], RunResult.timeoutErr 0 0 t) := by
  simp [connect_browser_with_retry, h, retryLoop, finalProbe]

/-- Claim C2: after the `n`-th consecutive failure the computed delay is
`min(2^(n-1), 3) + jitter`; with the jitter draw fixed at `0.2 = 1/5` the
delays are `1.2, 2.2, 3.2, 3.2, …`; and the suspension for the delay is
performed precisely when `elapsed + delay < timeout`, otherwise the next
attempt proceeds immediately with no suspension event. -/
theorem claim_C2 (jit : Nat → ℚ) :
    (∀ n : Nat, 1 ≤ n →
      backoffDelay jit n = min ((2 : ℚ) ^ (n - 1)) 3 + jit (n - 1)) ∧
    (backoffDelay (fun _ => 1/5) 1 = 6/5 ∧
     backoffDelay (fun _ => 1/5) 2 = 11/5 ∧
     ∀ n : Nat, 3 ≤ n → backoffDelay (fun _ => 1/5) n = 16/5) ∧
    (∀ (ok : Nat → Bool) (ctime : Nat → ℚ) (url2 : List Char)
        (t maxR : ℤ) (rc fuel : Nat) (elapsed : ℚ),
      elapsed < (t : ℚ) → (rc : ℤ) < maxR → ok rc = false →
      (retryLoop ok ctime jit url2 t maxR rc elapsed (fuel + 1)).1 =
        Ev.attempt url2 rc ::
          (if elapsed + ctime rc + backoffDelay jit (rc + 1) < (t : ℚ) then
            Ev.sleepEv (backoffDelay jit (rc + 1)) ::
              (retryLoop ok ctime jit url2 t maxR (rc + 1)
                (elapsed + ctime rc + backoffDelay jit (rc + 1)) fuel).1
          else
            Ev.skipEv ::
              (retryLoop ok ctime jit url2 t maxR (rc + 1)
                (elapsed + ctime rc) fuel).1)) := by
  refine ⟨fun n _ => rfl, ⟨?_, ?_, ?_⟩, ?_⟩
  · norm_num [backoffDelay]
  · norm_num [backoffDelay]
  · intro n hn
    have h4 : (4 : ℚ) ≤ 2 ^ (n - 1) := by
      calc (4 : ℚ) = 2 ^ 2 := by norm_num
        _ ≤ 2 ^ (n - 1) := by
          apply pow_le_pow_right₀ one_le_two
          omega
    have hmin : min ((2 : ℚ) ^ (n - 1)) 3 = 3 :=
      min_eq_right (le_trans (by norm_num) h4)
    rw [backoffDelay, hmin]
    norm_num
  · intro ok ctime url2 t maxR rc fuel elapsed h1 h2 h3
    rw [retryLoop, if_pos ⟨h1, h2⟩, h3]
    simp only [Bool.false_eq_true, if_false]
    split <;> rfl

/-- Witness for C2: the delay formula and the fixed-jitter delay values at
concrete attempt numbers, plus the suspension/no-suspension dichotomy at a
concrete loop state. -/
theorem claim_C2_witness :
    backoffDelay (fun _ => 1/5) 1 = 6/5 ∧
    backoffDelay (fun _ => 1/5) 2 = 11/5 ∧
    backoffDelay (fun _ => 1/5) 7 = 16/5 ∧
    (retryLoop (fun _ => false) (fun _ => 0) (fun _ => 1/5)
        ("u".data) 30 15 0 0 1).1 =
      Ev.attempt ("u".data) 0 ::
        (if (0 : ℚ) + 0 + backoffDelay (fun _ => 1/5) 1 < ((30 : ℤ) : ℚ) then
          Ev.sleepEv (backoffDelay (fun _ => 1/5) 1) ::
            (retryLoop (fun _ => false) (fun _ => 0) (fun _ => 1/5)
              ("u".data) 30 15 1 ((0 : ℚ) + 0 + backoffDelay (fun _ => 1/5) 1) 0).1
        else
          Ev.skipEv ::
            (retryLoop (fun _ => false) (fun _ => 0) (fun _ => 1/5)
              ("u".data) 30 15 1 ((0 : ℚ) + 0) 0).1) := by
  refine ⟨(claim_C2 (fun _ => 1/5)).2.1.1, (claim_C2 (fun _ => 1/5)).2.1.2.1,
    (claim_C2 (fun _ => 1/5)).2.1.2.2 7 (by decide), ?_⟩
  exact (claim_C2 (fun _ => 1/5)).2.2 (fun _ => false) (fun _ => 0) ("u".data)
    30 15 0 0 0 (by norm_num) (by norm_num) rfl

/-- With a connect primitive that always fails and consumes no time, the
retry loop performs exactly `fuel` further attempts from any state whose
elapsed time is still below the budget, where `fuel` is the remaining
retry allowance, and exits with the timeout outcome carrying the final
attempt count.  The elapsed-time invariant is maintained because a delay is
only awaited when `elapsed + delay < timeout`. -/
theorem retryLoop_all_fail (ok : Nat → Bool) (ctime jit : Nat → ℚ)
    (url2 : List Char) (t maxR : ℤ)
    (hok : ∀ n, ok n = false) (hct : ∀ n, ctime n = 0) :
    ∀ (fuel rc : Nat) (elapsed : ℚ), elapsed < (t : ℚ) →
      ((rc : ℤ) + fuel = maxR) →
      attemptCount (retryLoop ok ctime jit url2 t maxR rc elapsed fuel).1 = fuel ∧
      ∃ e2, (retryLoop ok ctime jit url2 t maxR rc elapsed fuel).2 =
        RunResult.timeoutErr (rc + fuel) e2 t := by
  intro fuel
  induction fuel with
  | zero =>
    intro rc elapsed h1 h2
    exact ⟨by simp [retryLoop, attemptCount], elapsed, by simp [retryLoop]⟩
  | succ f ih =>
    intro rc elapsed h1 h2
    have hlt : (rc : ℤ) < maxR := by push_cast at h2 ⊢; omega
    rw [retryLoop, if_pos ⟨h1, hlt⟩, hok rc, hct rc]
    simp only [Bool.false_eq_true, if_false, add_zero]
    split
    · rename_i hs
      have hrec := ih (rc + 1) (elapsed + backoffDelay jit (rc + 1)) hs
        (by push_cast at h2 ⊢; omega)
      refine ⟨by simp [attemptCount, hrec.1], ?_⟩
      obtain ⟨e2, he2⟩ := hrec.2
      exact ⟨e2, by rw [he2]; congr 1; omega⟩
    · have hrec := ih (rc + 1) elapsed h1 (by push_cast at h2 ⊢; omega)
      refine ⟨by simp [attemptCount, hrec.1], ?_⟩
      obtain ⟨e2, he2⟩ := hrec.2
      exact ⟨e2, by rw [he2]; congr 1; omega⟩

/-- Claim C3: `max_retries = min(timeout // 2, 15)` never exceeds 15; and
with `timeout = 30` and a connect primitive that fails on every call while
consuming negligible time, the connect primitive is invoked exactly 15
times before the timeout error is raised. -/
theorem claim_C3 (ok : Nat → Bool) (ctime jit : Nat → ℚ) (url : List Char)
    (hok : ∀ n, ok n = false) (hct : ∀ n, ctime n = 0) :
    (∀ t : ℤ, max_retries t ≤ 15) ∧
    attemptCount (connect_browser_with_retry ok ctime jit url 30).1 = 15 ∧
    ∃ e2, (connect_browser_with_retry ok ctime jit url 30).2 =
      RunResult.timeoutErr 15 e2 30 := by
  have hmr : max_retries 30 = 15 := by decide
  have hloop := retryLoop_all_fail ok ctime jit (resolve_url url) 30 15 hok hct
    15 0 0 (by norm_num) (by norm_num)
  obtain ⟨hcount, e2, he2⟩ := hloop
  refine ⟨fun t => min_le_right _ _, ?_, ?_⟩
  · simp only [connect_browser_with_retry, hmr]
    rw [attemptCount_append]
    have h0 : (15 : ℤ).toNat = 15 := rfl
    rw [h0] at *
    rw [he2]
    simp [attemptCount, finalProbe, hcount]
  · refine ⟨e2, ?_⟩
    simp only [connect_browser_with_retry, hmr]
    have h0 : (15 : ℤ).toNat = 15 := rfl
    rw [h0]
    exact he2

/-- Witness for C3 with the concrete always-failing, zero-duration connect
oracle. -/
theorem claim_C3_witness :
    (∀ t : ℤ, max_retries t ≤ 15) ∧
    attemptCount (connect_browser_with_retry (fun _ => false) (fun _ => 0)
      (fun _ => 1/5) ("ws://127.0.0.1:57600".data) 30).1 = 15 :=
  ⟨(claim_C3 (fun _ => false) (fun _ => 0) (fun _ => 1/5)
      ("ws://127.0.0.1:57600".data) (fun _ => rfl) (fun _ => rfl)).1,
   (claim_C3 (fun _ => false) (fun _ => 0) (fun _ => 1/5)
      ("ws://127.0.0.1:57600".data) (fun _ => rfl) (fun _ => rfl)).2.1⟩

/-- Claim C4: for every `timeout <= 0` the run fails immediately with a
timeout error recording zero attempts and zero elapsed time, without ever
invoking the connect primitive (the trace holds only the two diagnostic
probes). -/
theorem claim_C4 (ok : Nat → Bool) (ctime jit : Nat → ℚ) (url : List Char)
    (t : ℤ) (ht : t ≤ 0) :
    connect_browser_with_retry ok ctime jit url t =
      ([Ev.probe, Ev.probe], RunResult.timeoutErr 0 0 t) ∧
    attemptCount (connect_browser_with_retry ok ctime jit url t).1 = 0 := by
  have hdiv : Int.fdiv t 2 = t / 2 := Int.fdiv_eq_ediv t (by norm_num)
  have hmr : (max_retries t).toNat = 0 := by
    rw [max_retries, hdiv]
    omega
  have h := run_no_budget ok ctime jit url t hmr
  exact ⟨h, by rw [h]; rfl⟩

/-- Witness for C4 at `timeout = 0` with a connect primitive that would
succeed if it were ever invoked: it is not. -/
theorem claim_C4_witness :
    connect_browser_with_retry (fun _ => true) (fun _ => 0) (fun _ => 1/5)
      ("ws://127.0.0.1:57600".data) 0 =
      ([Ev.probe, Ev.probe], RunResult.timeoutErr 0 0 0) :=
  (claim_C4 (fun _ => true) (fun _ => 0) (fun _ => 1/5)
    ("ws://127.0.0.1:57600".data) 0 (by decide)).1

/-- Claim C10: for `0 < timeout < 2` (that is, `timeout = 1`) the computed
`max_retries = 1 // 2 = 0`, so the run raises the timeout error immediately
with zero attempts even though the budget is strictly positive — the same
immediate failure the spec reserves for `timeout <= 0`. -/
theorem claim_C10 (ok : Nat → Bool) (ctime jit : Nat → ℚ) (url : List Char)
    (t : ℤ) (h1 : 0 < t) (h2 : t < 2) :
    max_retries t = 0 ∧
    connect_browser_with_retry ok ctime jit url t =
      ([Ev.probe, Ev.probe], RunResult.timeoutErr 0 0 t) ∧
    attemptCount (connect_browser_with_retry ok ctime jit url t).1 = 0 := by
  have ht : t = 1 := by omega
  subst ht
  have hmr : max_retries 1 = 0 := by decide
  have h := run_no_budget ok ctime jit url 1 (by rw [hmr]; rfl)
  exact ⟨hmr, h, by rw [h]; rfl⟩

/-- Witness for C10 at `timeout = 1`. -/
theorem claim_C10_witness :
    max_retries 1 = 0 ∧
    connect_browser_with_retry (fun _ => false) (fun _ => 0) (fun _ => 1/5)
      ("ws://127.0.0.1:57600".data) 1 =
      ([Ev.probe, Ev.probe], RunResult.timeoutErr 0 0 1) :=
  ⟨(claim_C10 (fun _ => false) (fun _ => 0) (fun _ => 1/5)
      ("ws://127.0.0.1:57600".data) 1 (by decide) (by decide)).1,
   (claim_C10 (fun _ => false) (fun _ => 0) (fun _ => 1/5)
      ("ws://127.0.0.1:57600".data) 1 (by decide) (by decide)).2.1⟩

/-! ### ConnectivityProbe
(`base_playwright_browser.py`, `check_connectivity`, lines 21-36) -/

/-- Outcome of the socket layer inside the `try` block of
`check_connectivity`: either `connect_ex` completes with a result code, or
some socket-level operation (socket creation, name resolution, ...) raises
an exception carrying a message. -/
inductive SockOutcome
  | code (r : ℤ)
  | exn (msg : List Char)
  deriving DecidableEq

/-- Embedding of `check_connectivity(host, port, timeout)`.  The `try`
block's behaviour is the `outcome` oracle; the `except` clause maps every
raised exception to a returned pair, so the embedding is a total function:
the probe never raises.  (`tmo` only parameterizes `sock.settimeout`, which
has no observable effect on the returned pair.) -/
def check_connectivity (host : List Char) (port : ℤ) (_tmo : ℚ)
    (outcome : SockOutcome) : Bool × List Char :=
  match outcome with
  | SockOutcome.code r =>
    if r = 0 then
      (true, "TCP connection to ".data ++ host ++ ":".data ++
        (toString port).data ++ " successful".data)
    else
      (false, "TCP connection to ".data ++ host ++ ":".data ++
        (toString port).data ++ " failed with error code ".data ++
        (toString r).data)
  | SockOutcome.exn e => (false, "TCP connection test failed: ".data ++ e)

/-- Claim C8: the connectivity probe is a total function returning a
`(reachable, message)` pair; `reachable` is `true` exactly when the connect
attempt reports the zero result code; every socket-level failure yields
`reachable = false` together with the descriptive exception message. -/
theorem claim_C8 (host : List Char) (port : ℤ) (tmo : ℚ)
    (outcome : SockOutcome) :
    ((check_connectivity host port tmo outcome).1 = true ↔
      outcome = SockOutcome.code 0) ∧
    (∀ e, outcome = SockOutcome.exn e →
      (check_connectivity host port tmo outcome).1 = false ∧
      (check_connectivity host port tmo outcome).2 =
        "TCP connection test failed: ".data ++ e) ∧
    (∀ r, outcome = SockOutcome.code r → r ≠ 0 →
      (check_connectivity host port tmo outcome).1 = false) := by
  refine ⟨?_, ?_, ?_⟩
  · cases outcome with
    | code r =>
      by_cases hr : r = 0 <;> simp [check_connectivity, hr]
    | exn e => simp [check_connectivity]
  · intro e he
    subst he
    exact ⟨rfl, rfl⟩
  · intro r hr hne
    subst hr
    simp [check_connectivity, hne]

/-- Witness for C8 at a concrete name-resolution failure. -/
theorem claim_C8_witness :
    (check_connectivity ("nohost".data) 8080 5
      (SockOutcome.exn ("Network unreachable".data))).1 = false ∧
    (check_connectivity ("nohost".data) 8080 5
      (SockOutcome.exn ("Network unreachable".data))).2 =
      "TCP connection test failed: ".data ++ "Network unreachable".data :=
  (claim_C8 ("nohost".data) 8080 5
    (SockOutcome.exn ("Network unreachable".data))).2.1
    ("Network unreachable".data) rfl

/-! ### BrowserResource scoped exit
(`base_playwright_browser.py`, `PlaywrightBrowser.__aexit__`, lines 147-163) -/

/-- The per-instance state relevant to the scoped exit: the `_closed` flag
and a count of completed `_close()` teardowns (the observable "teardown
work"). -/
structure BrowserLife where
  closed : Bool
  closeCalls : Nat
  deriving DecidableEq

/-- Embedding of `__aexit__`: `if not self._closed: await self._close();
self._closed = True`.  (`_close()` is modelled as completing, matching the
claim's "after a completed first close".) -/
def aexit (s : BrowserLife) : BrowserLife :=
  if s.closed then s
  else { closed := true, closeCalls := s.closeCalls + 1 }

/-- Claim C9: closing is idempotent — a second scoped exit after a
completed first one performs no teardown work, the second call is a no-op
guarded by the closed flag, and the closed state is terminal. -/
theorem claim_C9 (s : BrowserLife) :
    aexit (aexit s) = aexit s ∧
    (aexit (aexit s)).closeCalls = (aexit s).closeCalls ∧
    (aexit s).closed = true ∧
    (s.closed = true → aexit s = s) := by
  cases hs : s.closed <;> simp [aexit, hs]

/-- Witness for C9 at an already-closed state. -/
theorem claim_C9_witness :
    aexit { closed := true, closeCalls := 1 } =
      { closed := true, closeCalls := 1 } :=
  (claim_C9 { closed := true, closeCalls := 1 }).2.2.2 rfl

/-! ### DockerPlaywrightBrowser._close
(`base_playwright_browser.py`, lines 204-224) -/

/-- The four releases performed by `DockerPlaywrightBrowser._close`, in
source order: `self._context.close()`, `self._browser.close()`,
`self._playwright.stop()`, `self._container.stop(timeout=10)`. -/
inductive CloseStep
  | closeContext
  | closeBrowser
  | stopPlaywright
  | stopContainer
  deriving DecidableEq, Fintype

/-- Which of the four resources are present (the `if self._x:` guards) and
which of their release calls raise. -/
structure CloseEnv where
  hasContext : Bool
  hasBrowser : Bool
  hasPlaywright : Bool
  hasContainer : Bool
  contextCloseFails : Bool
  browserCloseFails : Bool
  playwrightStopFails : Bool
  containerStopFails : Bool
  deriving DecidableEq

/-- Source position of each release step. -/
def stepIndex : CloseStep → Nat
  | CloseStep.closeContext => 0
  | CloseStep.closeBrowser => 1
  | CloseStep.stopPlaywright => 2
  | CloseStep.stopContainer => 3

/-- The releases `_close` would perform when none of them raises, in source
order. -/
def presentSteps (e : CloseEnv) : List CloseStep :=
  (if e.hasContext then [CloseStep.closeContext] else []) ++
  (if e.hasBrowser then [CloseStep.closeBrowser] else []) ++
  (if e.hasPlaywright then [CloseStep.stopPlaywright] else []) ++
  (if e.hasContainer then [CloseStep.stopContainer] else [])

/-- Embedding of `DockerPlaywrightBrowser._close` together with
`_close_container`.  The body is four sequential awaits with no `try`;
an exception raised by any of them propagates immediately, so the steps
after the first raising release are never executed.  Returns the list of
release calls actually attempted and the raising step, if any. -/
def dockerClose (e : CloseEnv) : List CloseStep × Option CloseStep :=
  if e.hasContext && e.contextCloseFails then
    ([CloseStep.closeContext], some CloseStep.closeContext)
  else if e.hasBrowser && e.browserCloseFails then
    ((if e.hasContext then [CloseStep.closeContext] else []) ++
      [CloseStep.closeBrowser], some CloseStep.closeBrowser)
  else if e.hasPlaywright && e.playwrightStopFails then
    ((if e.hasContext then [CloseStep.closeContext] else []) ++
      (if e.hasBrowser then [CloseStep.closeBrowser] else []) ++
      [CloseStep.stopPlaywright], some CloseStep.stopPlaywright)
  else if e.hasContainer && e.containerStopFails then
    ((if e.hasContext then [CloseStep.closeContext] else []) ++
      (if e.hasBrowser then [CloseStep.closeBrowser] else []) ++
      (if e.hasPlaywright then [CloseStep.stopPlaywright] else []) ++
      [CloseStep.stopContainer], some CloseStep.stopContainer)
  else (presentSteps e, none)

/-- A close environment in which all four resources are present and only
the browsing-context release raises. -/
def closeEnvCtxFails : CloseEnv :=
  { hasContext := true, hasBrowser := true, hasPlaywright := true,
    hasContainer := true, contextCloseFails := true,
    browserCloseFails := false, playwrightStopFails := false,
    containerStopFails := false }

/-- Counterexample to C6 as stated: with every resource present and only
the browsing-context release failing, `_close` attempts no other release —
the control connection and the container are never released, and the error
surfaces before any further release is attempted. -/
theorem claim_C6_counterexample :
    closeEnvCtxFails.hasBrowser = true ∧
    closeEnvCtxFails.hasContainer = true ∧
    dockerClose closeEnvCtxFails =
      ([CloseStep.closeContext], some CloseStep.closeContext) ∧
    CloseStep.closeBrowser ∉ (dockerClose closeEnvCtxFails).1 ∧
    CloseStep.stopContainer ∉ (dockerClose closeEnvCtxFails).1 := by
  decide

/-- Claim C6, amended: during close of a container-backed resource the
browsing context, control connection, playwright driver and container are
released strictly in source order with no error isolation — when no release
raises, all present resources are released; when one raises, it is the
last release attempted, the error propagates immediately, and no later
release is attempted. -/
theorem claim_C6 (e : CloseEnv) :
    ((dockerClose e).2 = none → (dockerClose e).1 = presentSteps e) ∧
    (∀ x, (dockerClose e).2 = some x →
      x ∈ (dockerClose e).1 ∧
      ∀ y, stepIndex x < stepIndex y → y ∉ (dockerClose e).1) := by
  obtain ⟨a, b, c, d, p, q, r, s⟩ := e
  cases a <;> cases b <;> cases c <;> cases d <;>
    cases p <;> cases q <;> cases r <;> cases s <;> decide

/-- A close environment in which all four resources are present and only
the control-connection release raises. -/
def closeEnvBrowserFails : CloseEnv :=
  { hasContext := true, hasBrowser := true, hasPlaywright := true,
    hasContainer := true, contextCloseFails := false,
    browserCloseFails := true, playwrightStopFails := false,
    containerStopFails := false }

/-- Witness for C6 (amended) at an environment where the control-connection
release raises: it is attempted, and the container release is not. -/
theorem claim_C6_witness :
    CloseStep.closeBrowser ∈ (dockerClose closeEnvBrowserFails).1 ∧
    CloseStep.stopContainer ∉ (dockerClose closeEnvBrowserFails).1 := by
  have h := (claim_C6 closeEnvBrowserFails).2 CloseStep.closeBrowser (by decide)
  exact ⟨h.1, h.2 CloseStep.stopContainer (by decide)⟩

/-! ### DockerPlaywrightBrowser._start
(`base_playwright_browser.py`, lines 226-261) and the override
`VncDockerPlaywrightBrowser._start`
(`vnc_docker_playwright_browser.py`, lines 103-113) -/

/-- Observable events of a `_start` run. -/
inductive StartEv
  /-- `await self.create_container()` on the `n`-th loop iteration. -/
  | createContainerEv (n : Nat)
  /-- `await asyncio.to_thread(self._container.start)` on iteration `n`. -/
  | startContainerEv (n : Nat)
  /-- The fixed grace delay `await asyncio.sleep(secs)` after a successful
  container start. -/
  | graceSleep (secs : ℚ)
  /-- `self._generate_new_browser_address()` after a launch failure. -/
  | regenAddress
  /-- `await async_playwright().start()`. -/
  | playwrightStart
  /-- Invocation of `connect_browser_with_retry(self._playwright, url,
  timeout)`. -/
  | retryConnect (url : List Char) (timeout : ℤ)
  /-- A single direct `self._playwright.chromium.connect(url)` with no
  retry wrapper. -/
  | connectOnce (url : List Char)
  /-- `await self._browser.new_context()`. -/
  | newContextEv
  deriving DecidableEq

/-- Outcome of the container creation/launch loop. -/
inductive ContainerResult
  /-- The container launched on iteration `attempt`. -/
  | started (attempt : Nat)
  /-- `retries >= 3` was reached; the `DockerException` of iteration
  `lastErr` propagates. -/
  | failed (lastErr : Nat)
  deriving DecidableEq

/-- Embedding of the `while True` container loop of
`DockerPlaywrightBrowser._start` (lines 230-250): each iteration creates a
container and tries to start it; on failure `retries` is incremented, and
when `retries >= 3` the current exception propagates, otherwise a new
browser address is generated and the loop repeats.  `startFails n` tells
whether iteration `n`'s launch raises.  On entry to an iteration the
`retries` counter equals the iteration index.  The caller passes `fuel = 3`;
the fuel-exhausted base case is unreachable because the third failing
iteration raises. -/
def containerLoop (startFails : Nat → Bool) :
    Nat → Nat → List StartEv × ContainerResult
  | retries, 0 => ([], ContainerResult.failed retries)
  | retries, fuel+1 =>
    if startFails retries then
      if 3 ≤ retries + 1 then
        ([StartEv.createContainerEv retries, StartEv.startContainerEv retries],
         ContainerResult.failed retries)
      else
        (StartEv.createContainerEv retries :: StartEv.startContainerEv retries ::
           StartEv.regenAddress :: (containerLoop startFails (retries+1) fuel).1,
         (containerLoop startFails (retries+1) fuel).2)
    else
      ([StartEv.createContainerEv retries, StartEv.startContainerEv retries,
        StartEv.graceSleep 3], ContainerResult.started retries)

/-- Terminal outcome of `DockerPlaywrightBrowser._start`. -/
inductive StartOutcome
  /-- Container running and control connection established;
  `containerAttempt` is the iteration whose launch succeeded. -/
  | running (containerAttempt : Nat)
  /-- `ContainerStartError`: the launch failed on all 3 attempts;
  carries the iteration of the last underlying failure. -/
  | containerStartError (lastErr : Nat)
  /-- The container launched but `connect_browser_with_retry` raised its
  timeout error after `attempts` connect attempts. -/
  | connectTimeout (attempts : Nat)
  deriving DecidableEq

/-- Embedding of `DockerPlaywrightBrowser._start`: run the container loop
(3 total attempts), then connect through `connect_browser_with_retry` with
the longer container timeout 45 against the browser address current after
the regenerations (`addrOf k` is `self.browser_address` after `k`
regenerations), then open one browsing context. -/
def dockerStart (startFails : Nat → Bool) (addrOf : Nat → List Char)
    (ok : Nat → Bool) (ctime jit : Nat → ℚ) : List StartEv × StartOutcome :=
  match containerLoop startFails 0 3 with
  | (evs, ContainerResult.failed n) => (evs, StartOutcome.containerStartError n)
  | (evs, ContainerResult.started k) =>
    match (connect_browser_with_retry ok ctime jit (addrOf k) 45).2 with
    | RunResult.success _ _ =>
      (evs ++ [StartEv.playwrightStart, StartEv.retryConnect (addrOf k) 45,
        StartEv.newContextEv], StartOutcome.running k)
    | RunResult.timeoutErr a _ _ =>
      (evs ++ [StartEv.playwrightStart, StartEv.retryConnect (addrOf k) 45],
       StartOutcome.connectTimeout a)

/-- When the very first connect attempt succeeds and the budget is the
container timeout 45, `connect_browser_with_retry` returns success with
zero failed attempts. -/
theorem connect_first_try (ok : Nat → Bool) (ctime jit : Nat → ℚ)
    (url : List Char) (hok : ok 0 = true) :
    (connect_browser_with_retry ok ctime jit url 45).2 =
      RunResult.success 0 (ctime 0) := by
  have hmr : max_retries 45 = 15 := by decide
  have hfuel : (max_retries 45).toNat = 14 + 1 := by rw [hmr]; rfl
  have key : retryLoop ok ctime jit (resolve_url url) 45 15 0 0 (14 + 1) =
      ([Ev.attempt (resolve_url url) 0], RunResult.success 0 (0 + ctime 0)) := by
    rw [retryLoop, if_pos (⟨by norm_num, by norm_num⟩ :
      (0 : ℚ) < ((45 : ℤ) : ℚ) ∧ ((0 : Nat) : ℤ) < 15), hok]
    simp
  rw [connect_browser_with_retry, hfuel, hmr, key]
  simp

/-- Claim C7: container creation+launch is retried with a regenerated
browser address after each launch failure, up to 3 total attempts.  A
launch failing twice then succeeding on the 3rd attempt yields a running
resource (given the subsequent control connection succeeds), with the
connection later dialled against the twice-regenerated address; a launch
failing on all 3 attempts raises the fatal container-start error carrying
the last underlying failure, with no address regeneration after the final
failure. -/
theorem claim_C7 (startFails : Nat → Bool) (addrOf : Nat → List Char)
    (ok : Nat → Bool) (ctime jit : Nat → ℚ) :
    (startFails 0 = true → startFails 1 = true → startFails 2 = false →
      containerLoop startFails 0 3 =
        ([StartEv.createContainerEv 0, StartEv.startContainerEv 0,
          StartEv.regenAddress,
          StartEv.createContainerEv 1, StartEv.startContainerEv 1,
          StartEv.regenAddress,
          StartEv.createContainerEv 2, StartEv.startContainerEv 2,
          StartEv.graceSleep 3],
         ContainerResult.started 2) ∧
      (ok 0 = true →
        (dockerStart startFails addrOf ok ctime jit).2 =
          StartOutcome.running 2 ∧
        StartEv.retryConnect (addrOf 2) 45 ∈
          (dockerStart startFails addrOf ok ctime jit).1)) ∧
    (startFails 0 = true → startFails 1 = true → startFails 2 = true →
      dockerStart startFails addrOf ok ctime jit =
        ([StartEv.createContainerEv 0, StartEv.startContainerEv 0,
          StartEv.regenAddress,
          StartEv.createContainerEv 1, StartEv.startContainerEv 1,
          StartEv.regenAddress,
          StartEv.createContainerEv 2, StartEv.startContainerEv 2],
         StartOutcome.containerStartError 2)) := by
  constructor
  · intro h0 h1 h2
    have hcl : containerLoop startFails 0 3 =
        ([StartEv.createContainerEv 0, StartEv.startContainerEv 0,
          StartEv.regenAddress,
          StartEv.createContainerEv 1, StartEv.startContainerEv 1,
          StartEv.regenAddress,
          StartEv.createContainerEv 2, StartEv.startContainerEv 2,
          StartEv.graceSleep 3],
         ContainerResult.started 2) := by
      norm_num [containerLoop, h0, h1, h2]
    refine ⟨hcl, fun hok => ?_⟩
    have hconn := connect_first_try ok ctime jit (addrOf 2) hok
    rw [dockerStart, hcl]
    simp [hconn]
  · intro h0 h1 h2
    have hcl : containerLoop startFails 0 3 =
        ([StartEv.createContainerEv 0, StartEv.startContainerEv 0,
          StartEv.regenAddress,
          StartEv.createContainerEv 1, StartEv.startContainerEv 1,
          StartEv.regenAddress,
          StartEv.createContainerEv 2, StartEv.startContainerEv 2],
         ContainerResult.failed 2) := by
      norm_num [containerLoop, h0, h1, h2]
    rw [dockerStart, hcl]

/-- Witness for C7: launch failing on iterations 0 and 1 and succeeding on
iteration 2 yields a running resource; launch failing on all iterations
yields the container-start error carrying the last failure. -/
theorem claim_C7_witness :
    (dockerStart (fun n => decide (n < 2)) (fun _ => "a".data)
        (fun _ => true) (fun _ => 0) (fun _ => 0)).2 =
      StartOutcome.running 2 ∧
    (dockerStart (fun _ => true) (fun _ => "a".data)
        (fun _ => true) (fun _ => 0) (fun _ => 0)).2 =
      StartOutcome.containerStartError 2 := by
  constructor
  · exact (((claim_C7 (fun n => decide (n < 2)) (fun _ => "a".data)
      (fun _ => true) (fun _ => 0) (fun _ => 0)).1
      (by decide) (by decide) (by decide)).2 rfl).1
  · have h := (claim_C7 (fun _ => true) (fun _ => "a".data)
      (fun _ => true) (fun _ => 0) (fun _ => 0)).2 rfl rfl rfl
    simp [h]

/-! ### VncDockerPlaywrightBrowser
(`vnc_docker_playwright_browser.py`) -/

/-- The attributes of `VncDockerPlaywrightBrowser` that feed
`browser_address` (after the construction-time environment overrides have
been applied). -/
structure VncCfg where
  ws_scheme : List Char
  ws_host : List Char
  ws_port : ℤ
  ws_path : List Char
  deriving DecidableEq

/-- Embedding of the `browser_address` property (lines 77-82):
`f"{scheme}://{host}:{port}/{path}"`. -/
def vnc_browser_address (cfg : VncCfg) : List Char :=
  cfg.ws_scheme ++ "://".data ++ cfg.ws_host ++ ":".data ++
    (toString cfg.ws_port).data ++ "/".data ++ cfg.ws_path

/-- Embedding of the override `VncDockerPlaywrightBrowser._start`
(lines 103-113): it does not create, start or check any container, and it
establishes the control connection with a single direct
`self._playwright.chromium.connect(self.browser_address)` — not through
`connect_browser_with_retry`. -/
def vncStart (cfg : VncCfg) : List StartEv :=
  [StartEv.playwrightStart, StartEv.connectOnce (vnc_browser_address cfg),
   StartEv.newContextEv]

/-- The default configuration of the VNC variant
(`ws://127.0.0.1:37367/ws`). -/
def vncCfgDefault : VncCfg :=
  { ws_scheme := "ws".data, ws_host := "127.0.0.1".data,
    ws_port := 37367, ws_path := "ws".data }

/-- Counterexample to C5 as stated: at the default configuration the VNC
variant's `_start` trace contains no container creation, no container
launch, and no invocation of the retry loop — it is exactly a playwright
start, one direct unretried connect, and one new context. -/
theorem claim_C5_counterexample :
    vncStart vncCfgDefault =
      [StartEv.playwrightStart,
       StartEv.connectOnce (vnc_browser_address vncCfgDefault),
       StartEv.newContextEv] ∧
    StartEv.createContainerEv 0 ∉ vncStart vncCfgDefault ∧
    StartEv.startContainerEv 0 ∉ vncStart vncCfgDefault ∧
    StartEv.retryConnect (vnc_browser_address vncCfgDefault) 45 ∉
      vncStart vncCfgDefault := by
  refine ⟨rfl, ?_, ?_, ?_⟩ <;> simp [vncStart]

/-- Claim C5, amended: `VncDockerPlaywrightBrowser` overrides `_start` to
own no container at all: for every configuration it performs no container
creation or launch and never invokes the retry loop; it starts playwright,
issues a single unretried connect to `browser_address`, and opens one
browsing context.  (The container-creating template with the retry loop
and container timeout 45 lives in `DockerPlaywrightBrowser._start`, which
this override displaces.) -/
theorem claim_C5 (cfg : VncCfg) :
    vncStart cfg =
      [StartEv.playwrightStart,
       StartEv.connectOnce (vnc_browser_address cfg),
       StartEv.newContextEv] ∧
    (∀ n : Nat, StartEv.createContainerEv n ∉ vncStart cfg ∧
      StartEv.startContainerEv n ∉ vncStart cfg) ∧
    (∀ (u : List Char) (t : ℤ), StartEv.retryConnect u t ∉ vncStart cfg) := by
  refine ⟨rfl, fun n => ⟨?_, ?_⟩, fun u t => ?_⟩ <;> simp [vncStart]
